import Mathlib

/-! # Verification of the multi-agent coder workflow engine

Shallow embedding of `src/MultiAgentCoderWithMutationAndTimeout.py` (the
fully-evolved variant of the workflow) and, where a claim also cites it, of
the reflector node of `src/MultiAgentCoderWithMutation.py` (namespace `V4`).

Generation (LLM) calls are modelled as oracle arguments: each node is a pure
function of the incoming state and the oracle value it would obtain from the
generation collaborator.  Nodes return a partial-update patch (a record of
`Option` fields) that the orchestrator merges into the shared state,
mirroring LangGraph's dict-merge semantics: a key absent from the returned
dict leaves the corresponding state field unchanged.  The two well-known
artifact files (`implementation.py`, `test_suite.py`) are modelled
explicitly as a `FileSystem` record, and the external `pytest` subprocess
invocations as outcome oracles (completed with an exit status, or raised).
-/

/-- Structured output schema `FinalSpec` (pydantic model): the compiled
specification record, including the two replan-control fields. -/
structure FinalSpec where
  function_name : String
  inputs : List (String × String)
  output_type : String
  description : String
  requirements : List String
  edge_cases : List String
  needs_replan : Bool
  replan_reason : String
deriving DecidableEq, Repr

/-- Structured output schema `TestOutput` (pydantic model). -/
structure TestOutput where
  thought_process : String
  test_code : String
deriving DecidableEq, Repr

/-- Structured output schema `CodeOutput` (pydantic model). -/
structure CodeOutput where
  thought_process : String
  impl_code : String
deriving DecidableEq, Repr

/-- Structured output schema `ReflectionOutput` (pydantic model). -/
structure ReflectionOutput where
  analysis : String
  action : String
  feedback : String
deriving DecidableEq, Repr

/-- Structured output schema `MutantOutput` (pydantic model). -/
structure MutantOutput where
  mutant_code : String
  mutation_description : String
deriving DecidableEq, Repr

/-- The shared workflow state `AgentState` (TypedDict).  The `design_plan`
dict is `none` when empty (`{}` in the source) and `some spec` when a
`FinalSpec.model_dump()` has been committed. -/
structure AgentState where
  requirements : String
  po_output : String
  architect_output : String
  critic_output : String
  design_plan : Option FinalSpec
  replan_count : Nat
  test_code : String
  impl_code : String
  test_result : String
  feedback : String
  iteration : Nat
  mutation_logs : List String
  current_phase : String
  next_action : String
deriving DecidableEq, Repr

/-- A partial state update returned by a node: `none` means the key is
absent from the returned dict and the state field is left unchanged by the
LangGraph merge. -/
structure StatePatch where
  po_output : Option String := none
  architect_output : Option String := none
  critic_output : Option String := none
  design_plan : Option (Option FinalSpec) := none
  replan_count : Option Nat := none
  test_code : Option String := none
  impl_code : Option String := none
  test_result : Option String := none
  feedback : Option String := none
  iteration : Option Nat := none
  mutation_logs : Option (List String) := none
  current_phase : Option String := none
  next_action : Option String := none
deriving DecidableEq, Repr

/-- LangGraph merge semantics: keys present in the patch overwrite the
state, absent keys leave it unchanged.  `requirements` is never written by
any node. -/
def applyPatch (s : AgentState) (p : StatePatch) : AgentState where
  requirements := s.requirements
  po_output := p.po_output.getD s.po_output
  architect_output := p.architect_output.getD s.architect_output
  critic_output := p.critic_output.getD s.critic_output
  design_plan := p.design_plan.getD s.design_plan
  replan_count := p.replan_count.getD s.replan_count
  test_code := p.test_code.getD s.test_code
  impl_code := p.impl_code.getD s.impl_code
  test_result := p.test_result.getD s.test_result
  feedback := p.feedback.getD s.feedback
  iteration := p.iteration.getD s.iteration
  mutation_logs := p.mutation_logs.getD s.mutation_logs
  current_phase := p.current_phase.getD s.current_phase
  next_action := p.next_action.getD s.next_action

/-- Node `node_planner_po` ([Role A1] Product Owner): sole initialization point,
resets the counters, the mutation log, the phase and the feedback. -/
def node_planner_po (_s : AgentState) (res_content : String) : StatePatch :=
  { po_output := some res_content,
    iteration := some 0,
    replan_count := some 0,
    mutation_logs := some [],
    current_phase := some "dev",
    feedback := some "" }

/-- Node `node_planner_architect` ([Role A2] Architect). -/
def node_planner_architect (_s : AgentState) (res_content : String) : StatePatch :=
  { architect_output := some res_content }

/-- Node `node_planner_critic` ([Role A3] Critic). -/
def node_planner_critic (_s : AgentState) (res_content : String) : StatePatch :=
  { critic_output := some res_content }

/-- The replan cap constant from `node_planner_reviser`. -/
def MAX_REPLANS : Nat := 3

/-- Node `node_planner_reviser` ([Role A4] Reviser): the spec compiler's
timeout-control decision logic. -/
def node_planner_reviser (s : AgentState) (result : FinalSpec) : StatePatch :=
  if result.needs_replan then
    if s.replan_count ≥ MAX_REPLANS then
      { design_plan := some (some result),
        feedback := some ("Warning: Spec finalized after " ++ toString MAX_REPLANS
          ++ " replans. Issues may remain."),
        next_action := some "proceed" }
    else
      { design_plan := some none,
        feedback := some result.replan_reason,
        next_action := some "replan_internal",
        replan_count := some (s.replan_count + 1) }
  else
    { design_plan := some (some result),
      next_action := some "proceed",
      feedback := some "" }

/-- Node `node_tester` ([Role B] Tester): writes the test artifact, clears the
feedback. -/
def node_tester (_s : AgentState) (res : TestOutput) : StatePatch :=
  { test_code := some res.test_code, feedback := some "" }

/-- Node `node_coder` ([Role C] Coder): writes the implementation artifact. -/
def node_coder (_s : AgentState) (res : CodeOutput) : StatePatch :=
  { impl_code := some res.impl_code }

/-- Outcome of the external `pytest` invocation inside `node_executor`:
either the subprocess completed (with captured stdout, stderr and a return
code) or the invocation raised (timeout, spawn failure, ...). -/
inductive RunOutcome where
  | completed (stdout stderr : String) (returncode : Int)
  | raised (errMsg : String)
deriving DecidableEq, Repr

/-- The two well-known artifact files written by the sandbox runner. -/
structure FileSystem where
  implementation : String
  test_suite : String
deriving DecidableEq, Repr

/-- Node `node_executor` ([Role D] Executor): the state patch it returns.  The
try/except around `subprocess.run` catches any exception and turns it into
an `Execution Error:` log line; the node itself never raises. -/
def node_executor (_s : AgentState) (run : RunOutcome) : StatePatch :=
  match run with
  | .completed out err _ => { test_result := some (out ++ err) }
  | .raised e => { test_result := some ("Execution Error: " ++ e) }

/-- Node `node_reflector` ([Role D] Reflector) of the timeout variant: the global
loop limit short-circuits before the generation call; otherwise the decision
oracle's action and feedback are recorded and `iteration` is bumped. -/
def node_reflector (s : AgentState) (decision : ReflectionOutput) : StatePatch :=
  if s.iteration > 20 then
    { next_action := some "finish", feedback := some "Global Loop Limit reached." }
  else
    let new_state : StatePatch :=
      { feedback := some decision.feedback,
        next_action := some decision.action,
        iteration := some (s.iteration + 1) }
    if decision.action = "mutation_check" then
      { new_state with current_phase := some "mutation" }
    else
      new_state

/-- Outcome of the probe `pytest` run inside `node_mutation_tester`: a
completed run with a return code, or any raised exception (the bare
`except:` catches everything, including a timeout). -/
inductive ProbeOutcome where
  | completed (returncode : Int)
  | raised
deriving DecidableEq, Repr

/-- Node `node_mutation_tester` ([Role E] Mutation Tester): writes the mutant to
`implementation.py`, probes the test suite, unconditionally writes the
original implementation back, and returns the audit patch.  Returns the
final file-system contents together with the state patch. -/
def node_mutation_tester (s : AgentState) (mutant : MutantOutput)
    (probe : ProbeOutcome) (fs : FileSystem) : FileSystem × StatePatch :=
  let original_impl := s.impl_code
  let fs1 : FileSystem := { fs with implementation := mutant.mutant_code }
  let mutant_survived : Bool :=
    match probe with
    | .completed rc => rc == 0
    | .raised => false
  let fs2 : FileSystem := { fs1 with implementation := original_impl }
  if mutant_survived then
    (fs2,
     { feedback := some ("ミューテーションテスト失敗: あなたのテストはバグ『"
         ++ mutant.mutation_description
         ++ "』を見逃しました。これを検知できるテストケースを追加してください。"),
       next_action := some "retry_test",
       mutation_logs := some (s.mutation_logs ++ ["Survived"]) })
  else
    (fs2,
     { feedback := some "Passed.",
       next_action := some "finish",
       mutation_logs := some (s.mutation_logs ++ ["Killed"]) })

/-- The nodes of the LangGraph workflow, plus the terminal pseudo-node. -/
inductive GraphNode where
  | planner_po
  | planner_architect
  | planner_critic
  | planner_reviser
  | tester
  | coder
  | executor
  | reflector
  | mutation_tester
  | END
deriving DecidableEq, Repr

/-- Router `router_reviser`: the conditional edge after the spec compiler. -/
def router_reviser (s : AgentState) : GraphNode :=
  if s.next_action = "replan_internal" then .planner_architect else .tester

/-- Router `router_reflector`: the conditional edge after the reflector. -/
def router_reflector (s : AgentState) : GraphNode :=
  if s.next_action = "retry_code" then .coder
  else if s.next_action = "retry_test" then .tester
  else if s.next_action = "replan" then .planner_architect
  else if s.next_action = "mutation_check" then .mutation_tester
  else if s.next_action = "finish" then .END
  else .END

/-- Router `router_mutation`: the conditional edge after the mutation auditor. -/
def router_mutation (s : AgentState) : GraphNode :=
  if s.next_action = "retry_test" then .tester else .END

/-- One orchestrator step: the node at the current graph position runs (with
its oracle inputs) and the fixed edge or router selects the next node.  The
executor writes both artifacts before running `pytest`; the mutation auditor
is the only other node that touches the file system. -/
inductive Step :
    GraphNode → AgentState → FileSystem → GraphNode → AgentState → FileSystem → Prop where
  | po (s : AgentState) (fs : FileSystem) (res : String) :
      Step .planner_po s fs .planner_architect (applyPatch s (node_planner_po s res)) fs
  | architect (s : AgentState) (fs : FileSystem) (res : String) :
      Step .planner_architect s fs .planner_critic
        (applyPatch s (node_planner_architect s res)) fs
  | critic (s : AgentState) (fs : FileSystem) (res : String) :
      Step .planner_critic s fs .planner_reviser
        (applyPatch s (node_planner_critic s res)) fs
  | reviser (s : AgentState) (fs : FileSystem) (result : FinalSpec) :
      Step .planner_reviser s fs
        (router_reviser (applyPatch s (node_planner_reviser s result)))
        (applyPatch s (node_planner_reviser s result)) fs
  | tester (s : AgentState) (fs : FileSystem) (res : TestOutput) :
      Step .tester s fs .coder (applyPatch s (node_tester s res)) fs
  | coder (s : AgentState) (fs : FileSystem) (res : CodeOutput) :
      Step .coder s fs .executor (applyPatch s (node_coder s res)) fs
  | executor (s : AgentState) (fs : FileSystem) (run : RunOutcome) :
      Step .executor s fs .reflector (applyPatch s (node_executor s run))
        { implementation := s.impl_code, test_suite := s.test_code }
  | reflector (s : AgentState) (fs : FileSystem) (d : ReflectionOutput) :
      Step .reflector s fs
        (router_reflector (applyPatch s (node_reflector s d)))
        (applyPatch s (node_reflector s d)) fs
  | mutation (s : AgentState) (fs : FileSystem) (m : MutantOutput) (probe : ProbeOutcome) :
      Step .mutation_tester s fs
        (router_mutation (applyPatch s (node_mutation_tester s m probe fs).2))
        (applyPatch s (node_mutation_tester s m probe fs).2)
        (node_mutation_tester s m probe fs).1

/-- Reflexive-transitive closure of `Step`: all configurations reachable
from a given configuration. -/
inductive ReachFrom :
    GraphNode → AgentState → FileSystem → GraphNode → AgentState → FileSystem → Prop where
  | refl (n : GraphNode) (s : AgentState) (fs : FileSystem) : ReachFrom n s fs n s fs
  | tail {n : GraphNode} {s : AgentState} {fs : FileSystem}
      {n1 : GraphNode} {s1 : AgentState} {fs1 : FileSystem}
      {n2 : GraphNode} {s2 : AgentState} {fs2 : FileSystem} :
      ReachFrom n s fs n1 s1 fs1 → Step n1 s1 fs1 n2 s2 fs2 → ReachFrom n s fs n2 s2 fs2

/-- The initial state dict built in `__main__` for a user task `req`. -/
def initState (req : String) : AgentState :=
  { requirements := req,
    po_output := "", architect_output := "", critic_output := "",
    design_plan := none, replan_count := 0,
    test_code := "", impl_code := "", test_result := "", feedback := "",
    iteration := 0, mutation_logs := [],
    current_phase := "dev", next_action := "" }

/-- A configuration reachable in a run of the compiled workflow started on
requirements `req` with initial artifact-file contents `fs0` (the entry
point is `planner_po`). -/
def Reach (req : String) (fs0 : FileSystem)
    (n : GraphNode) (s : AgentState) (fs : FileSystem) : Prop :=
  ReachFrom .planner_po (initState req) fs0 n s fs

namespace V4

/-- Node `node_reflector` of `src/MultiAgentCoderWithMutation.py` (the variant
without the executor timeout guard): its loop-limit branch also increments
`iteration`. -/
def node_reflector (s : AgentState) (result : ReflectionOutput) : StatePatch :=
  if s.iteration > 20 then
    { feedback := some "Loop limit reached.",
      next_action := some "finish",
      iteration := some (s.iteration + 1) }
  else
    let new_state : StatePatch :=
      { feedback := some result.feedback,
        next_action := some result.action,
        iteration := some (s.iteration + 1) }
    if result.action = "mutation_check" then
      { new_state with current_phase := some "mutation" }
    else
      new_state

end V4

/-- The inductive invariant of a workflow run: the phase is one of the two
enum values, the replan counter never exceeds the cap, and whenever control
sits at the reflector or the mutation auditor the `implementation.py`
artifact holds exactly the state's implementation code. -/
def RunInv (n : GraphNode) (s : AgentState) (fs : FileSystem) : Prop :=
  (s.current_phase = "dev" ∨ s.current_phase = "mutation") ∧
  s.replan_count ≤ 3 ∧
  ((n = .reflector ∨ n = .mutation_tester) → fs.implementation = s.impl_code)

/-! ### Concrete inputs for a sample run (used to instantiate theorems) -/

/-- Sample initial artifact-file contents. -/
def fs0ex : FileSystem := { implementation := "stale impl", test_suite := "stale tests" }

/-- Sample compiled spec with `needs_replan = False`. -/
def exSpec : FinalSpec :=
  { function_name := "calculate_average",
    inputs := [("xs", "List[int]")],
    output_type := "float",
    description := "average of a list",
    requirements := ["return the arithmetic mean"],
    edge_cases := ["empty list"],
    needs_replan := false,
    replan_reason := "" }

/-- Sample compiled spec with `needs_replan = True`. -/
def wReplanSpec : FinalSpec :=
  { exSpec with needs_replan := true, replan_reason := "spec is contradictory" }

/-- Sample tester oracle output. -/
def exTest : TestOutput := { thought_process := "cover edges", test_code := "TEST-V1" }

/-- Sample coder oracle output. -/
def exCode : CodeOutput := { thought_process := "direct", impl_code := "IMPL-V1" }

/-- Sample reflector decision classifying a fully green run in `dev`. -/
def exDecision : ReflectionOutput :=
  { analysis := "all tests passed", action := "mutation_check", feedback := "probe the suite" }

/-- Sample reflector decision for an implementation-logic failure. -/
def dEx : ReflectionOutput :=
  { analysis := "assertion failed", action := "retry_code", feedback := "fix the loop" }

/-- Sample mutant oracle output. -/
def exMutant : MutantOutput :=
  { mutant_code := "IMPL-MUTATED", mutation_description := "flipped a comparison" }

/-- The initial state of the sample run. -/
def st0 : AgentState := initState "average of a list of numbers"

/-- Sample run, after the product-owner node. -/
def st1 : AgentState := applyPatch st0 (node_planner_po st0 "po notes")

/-- Sample run, after the architect node. -/
def st2 : AgentState := applyPatch st1 (node_planner_architect st1 "architect notes")

/-- Sample run, after the critic node. -/
def st3 : AgentState := applyPatch st2 (node_planner_critic st2 "critic notes")

/-- Sample run, after the reviser commits `exSpec`. -/
def st4 : AgentState := applyPatch st3 (node_planner_reviser st3 exSpec)

/-- Sample run, after the tester node. -/
def st5 : AgentState := applyPatch st4 (node_tester st4 exTest)

/-- Sample run, after the coder node. -/
def st6 : AgentState := applyPatch st5 (node_coder st5 exCode)

/-- Sample run, after a fully passing sandbox execution. -/
def st7 : AgentState := applyPatch st6 (node_executor st6 (.completed "2 passed" "" 0))

/-- Artifact files as written by the sample executor run. -/
def fs7 : FileSystem := { implementation := st6.impl_code, test_suite := st6.test_code }

/-- Sample run, after the reflector emits `mutation_check`. -/
def st8 : AgentState := applyPatch st7 (node_reflector st7 exDecision)

/-- A state sitting beyond the global loop limit. -/
def s21 : AgentState := { st0 with iteration := 21, test_result := "FAILED" }

/-- A state whose `replan_count` sits exactly at the cap. -/
def wS3 : AgentState := { st0 with replan_count := 3 }

/-- A state carrying a `finish` routing signal. -/
def wFinish : AgentState := { st0 with next_action := "finish" }

/-- A state carrying a `proceed` routing signal. -/
def wProceed : AgentState := { st0 with next_action := "proceed" }

/-! ### Helper lemmas -/

/-- Unfolding of the `MAX_REPLANS` constant. -/
theorem MAX_REPLANS_eq : MAX_REPLANS = 3 := rfl

/-- Shape of the reviser's patch on the invariant-relevant fields. -/
theorem reviser_patch_shape (s : AgentState) (r : FinalSpec) :
    (node_planner_reviser s r).current_phase = none ∧
    (node_planner_reviser s r).impl_code = none ∧
    (node_planner_reviser s r).iteration = none ∧
    ((node_planner_reviser s r).replan_count = none ∨
      (s.replan_count < 3 ∧
        (node_planner_reviser s r).replan_count = some (s.replan_count + 1))) := by
  unfold node_planner_reviser
  split_ifs with h1 h2
  · exact ⟨rfl, rfl, rfl, Or.inl rfl⟩
  · rw [MAX_REPLANS_eq] at h2
    exact ⟨rfl, rfl, rfl, Or.inr ⟨by omega, rfl⟩⟩
  · exact ⟨rfl, rfl, rfl, Or.inl rfl⟩

/-- The reflector's patch never carries a phase other than `"mutation"`. -/
theorem reflector_patch_phase (s : AgentState) (d : ReflectionOutput) :
    (node_reflector s d).current_phase = none ∨
    (node_reflector s d).current_phase = some "mutation" := by
  by_cases h20 : s.iteration > 20
  · simp [node_reflector, h20]
  · by_cases hact : d.action = "mutation_check" <;> simp [node_reflector, h20, hact]

/-- The reflector's patch touches neither artifact code nor the replan
counter. -/
theorem reflector_patch_frame (s : AgentState) (d : ReflectionOutput) :
    (node_reflector s d).impl_code = none ∧
    (node_reflector s d).replan_count = none := by
  by_cases h20 : s.iteration > 20
  · simp [node_reflector, h20]
  · by_cases hact : d.action = "mutation_check" <;> simp [node_reflector, h20, hact]

/-- The reflector's patch bumps `iteration` exactly below the limit. -/
theorem reflector_patch_iter (s : AgentState) (d : ReflectionOutput) :
    (s.iteration ≤ 20 ∧ (node_reflector s d).iteration = some (s.iteration + 1)) ∨
    (20 < s.iteration ∧ (node_reflector s d).iteration = none) := by
  by_cases h20 : s.iteration > 20
  · exact Or.inr ⟨h20, by simp [node_reflector, h20]⟩
  · refine Or.inl ⟨by omega, ?_⟩
    by_cases hact : d.action = "mutation_check" <;> simp [node_reflector, h20, hact]

/-- Shape of the executor's patch. -/
theorem executor_patch_shape (s : AgentState) (run : RunOutcome) :
    (node_executor s run).current_phase = none ∧
    (node_executor s run).impl_code = none ∧
    (node_executor s run).iteration = none ∧
    (node_executor s run).replan_count = none := by
  cases run <;> exact ⟨rfl, rfl, rfl, rfl⟩

/-- Shape of the mutation auditor's patch on the invariant-relevant
fields. -/
theorem mutation_patch_shape (s : AgentState) (m : MutantOutput)
    (probe : ProbeOutcome) (fs : FileSystem) :
    (node_mutation_tester s m probe fs).2.current_phase = none ∧
    (node_mutation_tester s m probe fs).2.impl_code = none ∧
    (node_mutation_tester s m probe fs).2.iteration = none ∧
    (node_mutation_tester s m probe fs).2.replan_count = none := by
  unfold node_mutation_tester
  cases probe with
  | completed rc =>
      by_cases h : rc == 0 <;> simp [h]
  | raised => simp

/-- The mutation auditor always leaves `implementation.py` holding the
state's implementation code, and never touches `test_suite.py`. -/
theorem mutation_restores (s : AgentState) (m : MutantOutput)
    (probe : ProbeOutcome) (fs : FileSystem) :
    (node_mutation_tester s m probe fs).1 =
      { implementation := s.impl_code, test_suite := fs.test_suite } := by
  unfold node_mutation_tester
  cases probe with
  | completed rc =>
      by_cases h : rc == 0 <;> simp [h]
  | raised => simp

/-- The reviser router only ever selects the architect or the tester. -/
theorem router_reviser_cases (s : AgentState) :
    router_reviser s = .planner_architect ∨ router_reviser s = .tester := by
  unfold router_reviser
  split_ifs <;> simp

/-- Generic induction principle over reachable configurations. -/
theorem reachFrom_ind {P : GraphNode → AgentState → FileSystem → Prop}
    {n0 : GraphNode} {s0 : AgentState} {fs0 : FileSystem}
    {n : GraphNode} {s : AgentState} {fs : FileSystem}
    (h : ReachFrom n0 s0 fs0 n s fs) (h0 : P n0 s0 fs0)
    (hstep : ∀ {a : GraphNode} {b : AgentState} {c : FileSystem}
      {d : GraphNode} {e : AgentState} {f : FileSystem},
      Step a b c d e f → P a b c → P d e f) :
    P n s fs := by
  induction h with
  | refl => exact h0
  | tail _ st ih => exact hstep st ih

/-- No step ever re-enters the entry node: `planner_po` has no incoming
edge in the graph. -/
theorem step_target_ne_po {a d : GraphNode} {b e : AgentState} {c f : FileSystem}
    (h : Step a b c d e f) : d ≠ GraphNode.planner_po := by
  cases h <;>
    first
      | decide
      | (simp only [router_reviser, router_reflector, router_mutation]
         split_ifs <;> decide)

/-- One step preserves the run invariant. -/
theorem step_runInv {a d : GraphNode} {b e : AgentState} {c f : FileSystem}
    (st : Step a b c d e f) (h : RunInv a b c) : RunInv d e f := by
  obtain ⟨h1, h2, h3⟩ := h
  cases st with
  | po =>
      rename_i res
      exact ⟨Or.inl (by simp [applyPatch, node_planner_po]),
        by simp [applyPatch, node_planner_po],
        by rintro (h | h) <;> exact absurd h (by decide)⟩
  | architect =>
      rename_i res
      exact ⟨by simpa [applyPatch, node_planner_architect] using h1,
        by simpa [applyPatch, node_planner_architect] using h2,
        by rintro (h | h) <;> exact absurd h (by decide)⟩
  | critic =>
      rename_i res
      exact ⟨by simpa [applyPatch, node_planner_critic] using h1,
        by simpa [applyPatch, node_planner_critic] using h2,
        by rintro (h | h) <;> exact absurd h (by decide)⟩
  | reviser =>
      rename_i result
      obtain ⟨hp, hi, hit, hrc⟩ := reviser_patch_shape b result
      refine ⟨?_, ?_, ?_⟩
      · simpa [applyPatch, hp] using h1
      · rcases hrc with hrc | ⟨hlt, hrc⟩ <;> simp [applyPatch, hrc] <;> omega
      · rcases router_reviser_cases (applyPatch b (node_planner_reviser b result)) with hr | hr <;>
          rw [hr] <;> rintro (h | h) <;> exact absurd h (by decide)
  | tester =>
      rename_i res
      exact ⟨by simpa [applyPatch, node_tester] using h1,
        by simpa [applyPatch, node_tester] using h2,
        by rintro (h | h) <;> exact absurd h (by decide)⟩
  | coder =>
      rename_i res
      exact ⟨by simpa [applyPatch, node_coder] using h1,
        by simpa [applyPatch, node_coder] using h2,
        by rintro (h | h) <;> exact absurd h (by decide)⟩
  | executor =>
      rename_i run
      obtain ⟨hp, hi, hit, hrc⟩ := executor_patch_shape b run
      exact ⟨by simpa [applyPatch, hp] using h1,
        by simpa [applyPatch, hrc] using h2,
        fun _ => by simp [applyPatch, hi]⟩
  | reflector =>
      rename_i dec
      obtain ⟨hi, hrc⟩ := reflector_patch_frame b dec
      refine ⟨?_, by simpa [applyPatch, hrc] using h2, ?_⟩
      · rcases reflector_patch_phase b dec with hp | hp
        · simpa [applyPatch, hp] using h1
        · exact Or.inr (by simp [applyPatch, hp])
      · intro _
        have hc := h3 (Or.inl rfl)
        simp [applyPatch, hi, hc]
  | mutation =>
      rename_i m probe
      obtain ⟨hp, hi, hit, hrc⟩ := mutation_patch_shape b m probe c
      refine ⟨by simpa [applyPatch, hp] using h1,
        by simpa [applyPatch, hrc] using h2, ?_⟩
      intro _
      rw [mutation_restores]
      simp [applyPatch, hi]

/-- The run invariant holds at every reachable configuration. -/
theorem reach_runInv {req : String} {fs0 : FileSystem} {n : GraphNode}
    {s : AgentState} {fs : FileSystem} (h : Reach req fs0 n s fs) :
    RunInv n s fs := by
  unfold Reach at h
  refine reachFrom_ind h ⟨Or.inl rfl, Nat.zero_le 3, ?_⟩
    (fun st hP => step_runInv st hP)
  rintro (h | h) <;> exact absurd h (by decide)

/-- The entry node is only ever visited in the initial configuration. -/
theorem reach_po {req : String} {fs0 fs : FileSystem} {s : AgentState}
    (h : Reach req fs0 .planner_po s fs) : s = initState req ∧ fs = fs0 := by
  unfold Reach at h
  exact reachFrom_ind
    (P := fun n s' fs' => n = .planner_po → s' = initState req ∧ fs' = fs0) h
    (fun _ => ⟨rfl, rfl⟩)
    (fun st _ hn => absurd hn (step_target_ne_po st)) rfl

/-- Any step from a node other than the entry node preserves the
`"mutation"` phase. -/
theorem step_phase {a d : GraphNode} {b e : AgentState} {c f : FileSystem}
    (st : Step a b c d e f) (hne : a ≠ GraphNode.planner_po)
    (hm : b.current_phase = "mutation") : e.current_phase = "mutation" := by
  cases st with
  | po => exact absurd rfl hne
  | architect => simpa [applyPatch, node_planner_architect] using hm
  | critic => simpa [applyPatch, node_planner_critic] using hm
  | reviser =>
      rename_i result
      simpa [applyPatch, (reviser_patch_shape b result).1] using hm
  | tester => simpa [applyPatch, node_tester] using hm
  | coder => simpa [applyPatch, node_coder] using hm
  | executor =>
      rename_i run
      simpa [applyPatch, (executor_patch_shape b run).1] using hm
  | reflector =>
      rename_i dec
      rcases reflector_patch_phase b dec with hp | hp <;> simp [applyPatch, hp, hm]
  | mutation =>
      rename_i m probe
      simpa [applyPatch, (mutation_patch_shape b m probe c).1] using hm

/-- A step that changes the phase is a reflector step emitting
`mutation_check`, and flips `"dev"` to `"mutation"`. -/
theorem step_phase_change {a d : GraphNode} {b e : AgentState} {c f : FileSystem}
    (st : Step a b c d e f)
    (hdom : b.current_phase = "dev" ∨ b.current_phase = "mutation")
    (hpo : a = GraphNode.planner_po → b.current_phase = "dev")
    (hne : e.current_phase ≠ b.current_phase) :
    a = GraphNode.reflector ∧ b.current_phase = "dev" ∧
      e.current_phase = "mutation" ∧ e.next_action = "mutation_check" := by
  cases st with
  | po =>
      exact absurd (by simp [applyPatch, node_planner_po, hpo rfl]) hne
  | architect => exact absurd (by simp [applyPatch, node_planner_architect]) hne
  | critic => exact absurd (by simp [applyPatch, node_planner_critic]) hne
  | reviser =>
      rename_i result
      exact absurd (by simp [applyPatch, (reviser_patch_shape b result).1]) hne
  | tester => exact absurd (by simp [applyPatch, node_tester]) hne
  | coder => exact absurd (by simp [applyPatch, node_coder]) hne
  | executor =>
      rename_i run
      exact absurd (by simp [applyPatch, (executor_patch_shape b run).1]) hne
  | reflector =>
      rename_i dec
      by_cases h20 : b.iteration > 20
      · exact absurd (by simp [applyPatch, node_reflector, h20]) hne
      · by_cases hact : dec.action = "mutation_check"
        · refine ⟨rfl, ?_, ?_, ?_⟩
          · rcases hdom with hd | hd
            · exact hd
            · exact absurd (by simp [applyPatch, node_reflector, h20, hact, hd]) hne
          · simp [applyPatch, node_reflector, h20, hact]
          · simp [applyPatch, node_reflector, h20, hact]
        · exact absurd (by simp [applyPatch, node_reflector, h20, hact]) hne
  | mutation =>
      rename_i m probe
      exact absurd (by simp [applyPatch, (mutation_patch_shape b m probe c).1]) hne

/-! ### Claim theorems -/

/-- C1: in the spec compiler (`node_planner_reviser`), whenever the verdict
has `needs_replan = true` and `replan_count ≥ 3` (`MAX_REPLANS`), the node
commits the spec record into `design_plan`, sets `feedback` to the warning
noting the forced acceptance, and sets `next_action = "proceed"` (not
`"replan_internal"`); the patch carries no `replan_count` key, so the
counter is unchanged by the merge; and on every reachable state
`replan_count ≤ 3`, so the counter never exceeds the cap. -/
theorem C1_forced_proceed_at_cap :
    (∀ (s : AgentState) (result : FinalSpec),
      result.needs_replan = true → 3 ≤ s.replan_count →
      node_planner_reviser s result =
        { design_plan := some (some result),
          feedback := some "Warning: Spec finalized after 3 replans. Issues may remain.",
          next_action := some "proceed" } ∧
      (applyPatch s (node_planner_reviser s result)).replan_count = s.replan_count ∧
      (applyPatch s (node_planner_reviser s result)).next_action = "proceed") ∧
    (∀ (req : String) (fs0 : FileSystem) (n : GraphNode) (s : AgentState)
      (fs : FileSystem), Reach req fs0 n s fs → s.replan_count ≤ 3) := by
  constructor
  · intro s result hnr hge
    have hcond : s.replan_count ≥ MAX_REPLANS := hge
    have hpatch : node_planner_reviser s result =
        { design_plan := some (some result),
          feedback := some "Warning: Spec finalized after 3 replans. Issues may remain.",
          next_action := some "proceed" } := by
      unfold node_planner_reviser
      rw [if_pos hnr, if_pos hcond]
      rfl
    exact ⟨hpatch, by rw [hpatch]; rfl, by rw [hpatch]; rfl⟩
  · exact fun req fs0 n s fs h => (reach_runInv h).2.1

/-- C2 counterexample: entered at `iteration = 21` (beyond the global
limit), the timeout variant's reflector returns a patch carrying no
`iteration` key at all, so the merged iteration stays `21` instead of
becoming the incoming iteration plus one. -/
theorem C2_counterexample :
    (node_reflector s21 dEx).iteration = none ∧
    (applyPatch s21 (node_reflector s21 dEx)).iteration = 21 ∧
    ¬ (applyPatch s21 (node_reflector s21 dEx)).iteration = s21.iteration + 1 :=
  ⟨rfl, rfl, by decide⟩

/-- C2 (amended): the timeout variant's reflector increments `iteration` by
exactly one in every branch taken when `iteration ≤ 20`, but its loop-limit
branch (`iteration > 20`) omits `iteration` from the patch and leaves it
unchanged; the `MultiAgentCoderWithMutation.py` variant's reflector
increments in every branch including the loop-limit one; and no node other
than the reflector ever increases `iteration` (the product-owner node
resets it to 0). -/
theorem C2_reflector_iteration :
    (∀ (s : AgentState) (d : ReflectionOutput), s.iteration ≤ 20 →
      (node_reflector s d).iteration = some (s.iteration + 1) ∧
      (applyPatch s (node_reflector s d)).iteration = s.iteration + 1) ∧
    (∀ (s : AgentState) (d : ReflectionOutput), 20 < s.iteration →
      (node_reflector s d).iteration = none ∧
      (applyPatch s (node_reflector s d)).iteration = s.iteration) ∧
    (∀ (s : AgentState) (d : ReflectionOutput),
      (V4.node_reflector s d).iteration = some (s.iteration + 1)) ∧
    (∀ (a d : GraphNode) (b e : AgentState) (c f : FileSystem),
      Step a b c d e f → a ≠ GraphNode.reflector → e.iteration ≤ b.iteration) := by
  refine ⟨?_, ?_, ?_, ?_⟩
  · intro s d h
    rcases reflector_patch_iter s d with ⟨h20, hit⟩ | ⟨h20, hit⟩
    · exact ⟨hit, by simp [applyPatch, hit]⟩
    · omega
  · intro s d h
    rcases reflector_patch_iter s d with ⟨h20, hit⟩ | ⟨h20, hit⟩
    · omega
    · exact ⟨hit, by simp [applyPatch, hit]⟩
  · intro s d
    by_cases h20 : s.iteration > 20
    · simp [V4.node_reflector, h20]
    · by_cases hact : d.action = "mutation_check" <;> simp [V4.node_reflector, h20, hact]
  · intro a d b e c f st hne
    cases st with
    | po => simp [applyPatch, node_planner_po]
    | architect => simp [applyPatch, node_planner_architect]
    | critic => simp [applyPatch, node_planner_critic]
    | reviser =>
        rename_i result
        simp [applyPatch, (reviser_patch_shape b result).2.2.1]
    | tester => simp [applyPatch, node_tester]
    | coder => simp [applyPatch, node_coder]
    | executor =>
        rename_i run
        simp [applyPatch, (executor_patch_shape b run).2.2.1]
    | reflector => exact absurd rfl hne
    | mutation =>
        rename_i m probe
        simp [applyPatch, (mutation_patch_shape b m probe c).2.2.1]

/-- C3: entered with `iteration > 20` (the global limit), the reflector
returns exactly `next_action = "finish"` with the loop-limit feedback text;
the patch is independent of any generation result (the branch short-circuits
before the generation call); the reflector router dispatches the merged
state to the terminal node; and no step ever leaves the terminal node, so
the run terminates. -/
theorem C3_loop_limit_short_circuit :
    ∀ (s : AgentState) (d : ReflectionOutput), 20 < s.iteration →
      node_reflector s d =
        { next_action := some "finish", feedback := some "Global Loop Limit reached." } ∧
      (∀ d2 : ReflectionOutput, node_reflector s d2 = node_reflector s d) ∧
      router_reflector (applyPatch s (node_reflector s d)) = GraphNode.END ∧
      (∀ fs : FileSystem,
        Step .reflector s fs .END (applyPatch s (node_reflector s d)) fs) ∧
      (∀ (n2 : GraphNode) (s2 s3 : AgentState) (fs2 fs3 : FileSystem),
        ¬ Step .END s3 fs3 n2 s2 fs2) := by
  intro s d h20
  have hpatch : ∀ d2 : ReflectionOutput, node_reflector s d2 =
      { next_action := some "finish", feedback := some "Global Loop Limit reached." } := by
    intro d2
    unfold node_reflector
    rw [if_pos h20]
  have hrout : router_reflector (applyPatch s (node_reflector s d)) = GraphNode.END := by
    rw [hpatch d]
    simp [router_reflector, applyPatch]
  refine ⟨hpatch d, fun d2 => (hpatch d2).trans (hpatch d).symm, hrout, ?_, ?_⟩
  · intro fs
    have hs := Step.reflector s fs d
    rwa [hrout] at hs
  · intro n2 s2 s3 fs2 fs3 hstep
    cases hstep

/-- C5: in the mutation auditor's probe, exit status 0 means the mutant
survived: one `"Survived"` entry is appended to `mutation_logs`, `feedback`
describes the missed defect, `next_action = "retry_test"` and the mutation
router sends the merged state to the test author; any non-zero exit status
or any raised execution error counts as killed: one `"Killed"` entry is
appended, `feedback = "Passed."`, `next_action = "finish"` and the mutation
router sends the merged state to the terminal node. -/
theorem C5_mutation_probe_outcomes :
    ∀ (s : AgentState) (m : MutantOutput) (fs : FileSystem),
      ((node_mutation_tester s m (.completed 0) fs).2 =
        { feedback := some ("ミューテーションテスト失敗: あなたのテストはバグ『"
            ++ m.mutation_description
            ++ "』を見逃しました。これを検知できるテストケースを追加してください。"),
          next_action := some "retry_test",
          mutation_logs := some (s.mutation_logs ++ ["Survived"]) } ∧
        router_mutation (applyPatch s (node_mutation_tester s m (.completed 0) fs).2)
          = GraphNode.tester) ∧
      (∀ rc : Int, rc ≠ 0 →
        (node_mutation_tester s m (.completed rc) fs).2 =
          { feedback := some "Passed.", next_action := some "finish",
            mutation_logs := some (s.mutation_logs ++ ["Killed"]) } ∧
        router_mutation (applyPatch s (node_mutation_tester s m (.completed rc) fs).2)
          = GraphNode.END) ∧
      ((node_mutation_tester s m .raised fs).2 =
        { feedback := some "Passed.", next_action := some "finish",
          mutation_logs := some (s.mutation_logs ++ ["Killed"]) } ∧
        router_mutation (applyPatch s (node_mutation_tester s m .raised fs).2)
          = GraphNode.END) := by
  intro s m fs
  have hsur : (node_mutation_tester s m (.completed 0) fs).2 =
      { feedback := some ("ミューテーションテスト失敗: あなたのテストはバグ『"
          ++ m.mutation_description
          ++ "』を見逃しました。これを検知できるテストケースを追加してください。"),
        next_action := some "retry_test",
        mutation_logs := some (s.mutation_logs ++ ["Survived"]) } := by
    simp [node_mutation_tester]
  have hkill : ∀ rc : Int, rc ≠ 0 →
      (node_mutation_tester s m (.completed rc) fs).2 =
        { feedback := some "Passed.", next_action := some "finish",
          mutation_logs := some (s.mutation_logs ++ ["Killed"]) } := by
    intro rc hrc
    simp [node_mutation_tester, hrc]
  have hraise : (node_mutation_tester s m .raised fs).2 =
      { feedback := some "Passed.", next_action := some "finish",
        mutation_logs := some (s.mutation_logs ++ ["Killed"]) } := by
    simp [node_mutation_tester]
  refine ⟨⟨hsur, ?_⟩, fun rc hrc => ⟨hkill rc hrc, ?_⟩, hraise, ?_⟩
  · rw [hsur]
    simp [router_mutation, applyPatch]
  · rw [hkill rc hrc]
    simp [router_mutation, applyPatch]
  · rw [hraise]
    simp [router_mutation, applyPatch]

/-- C6: when the spec compiler's verdict has `needs_replan = true` and
`replan_count < 3`, the compiler empties the spec (`design_plan = `empty),
sets `feedback` to the verdict's `replan_reason`, increments `replan_count`
by exactly one, and sets `next_action = "replan_internal"`, which the
reviser router sends back to the architect node; the counter is reset to 0
only by the product-owner node, which no step ever re-enters (it runs
exactly once, at workflow start, in the initial configuration), and every
other node either preserves the counter or increments it by one. -/
theorem C6_internal_replan :
    (∀ (s : AgentState) (result : FinalSpec),
      result.needs_replan = true → s.replan_count < 3 →
      node_planner_reviser s result =
        { design_plan := some none,
          feedback := some result.replan_reason,
          next_action := some "replan_internal",
          replan_count := some (s.replan_count + 1) } ∧
      router_reviser (applyPatch s (node_planner_reviser s result))
        = GraphNode.planner_architect) ∧
    (∀ (s : AgentState) (res : String), (node_planner_po s res).replan_count = some 0) ∧
    (∀ (a d : GraphNode) (b e : AgentState) (c f : FileSystem),
      Step a b c d e f → d ≠ GraphNode.planner_po) ∧
    (∀ (req : String) (fs0 fs : FileSystem) (s : AgentState),
      Reach req fs0 .planner_po s fs → s = initState req) ∧
    (∀ (a d : GraphNode) (b e : AgentState) (c f : FileSystem),
      Step a b c d e f → a ≠ GraphNode.planner_po →
      e.replan_count = b.replan_count ∨ e.replan_count = b.replan_count + 1) := by
  refine ⟨?_, fun s res => rfl, fun a d b e c f st => step_target_ne_po st,
    fun req fs0 fs s h => (reach_po h).1, ?_⟩
  · intro s result hnr hlt
    have hcond : ¬ s.replan_count ≥ MAX_REPLANS := by
      rw [MAX_REPLANS_eq]
      omega
    have hpatch : node_planner_reviser s result =
        { design_plan := some none,
          feedback := some result.replan_reason,
          next_action := some "replan_internal",
          replan_count := some (s.replan_count + 1) } := by
      unfold node_planner_reviser
      rw [if_pos hnr, if_neg hcond]
    refine ⟨hpatch, ?_⟩
    rw [hpatch]
    simp [router_reviser, applyPatch]
  · intro a d b e c f st hne
    cases st with
    | po => exact absurd rfl hne
    | architect => exact Or.inl (by simp [applyPatch, node_planner_architect])
    | critic => exact Or.inl (by simp [applyPatch, node_planner_critic])
    | reviser =>
        rename_i result
        rcases (reviser_patch_shape b result).2.2.2 with hrc | ⟨hlt, hrc⟩
        · exact Or.inl (by simp [applyPatch, hrc])
        · exact Or.inr (by simp [applyPatch, hrc])
    | tester => exact Or.inl (by simp [applyPatch, node_tester])
    | coder => exact Or.inl (by simp [applyPatch, node_coder])
    | executor =>
        rename_i run
        exact Or.inl (by simp [applyPatch, (executor_patch_shape b run).2.2.2])
    | reflector =>
        rename_i dec
        exact Or.inl (by simp [applyPatch, (reflector_patch_frame b dec).2])
    | mutation =>
        rename_i m probe
        exact Or.inl (by simp [applyPatch, (mutation_patch_shape b m probe c).2.2.2])

/-- C8: the reflector router maps `retry_code` to the coder, `retry_test`
to the tester, `replan` to the architect (not the product owner),
`mutation_check` to the mutation auditor, `finish` to the terminal node,
and any other value to the terminal node as the fail-safe default; and a
`finish` decision routes the reflector's merged state directly to the
terminal node. -/
theorem C8_reflector_router_table :
    (∀ s : AgentState,
      (s.next_action = "retry_code" → router_reflector s = GraphNode.coder) ∧
      (s.next_action = "retry_test" → router_reflector s = GraphNode.tester) ∧
      (s.next_action = "replan" → router_reflector s = GraphNode.planner_architect) ∧
      (s.next_action = "mutation_check" → router_reflector s = GraphNode.mutation_tester) ∧
      (s.next_action = "finish" → router_reflector s = GraphNode.END) ∧
      (s.next_action ≠ "retry_code" → s.next_action ≠ "retry_test" →
        s.next_action ≠ "replan" → s.next_action ≠ "mutation_check" →
        s.next_action ≠ "finish" → router_reflector s = GraphNode.END)) ∧
    (∀ (s : AgentState) (d : ReflectionOutput), d.action = "finish" →
      router_reflector (applyPatch s (node_reflector s d)) = GraphNode.END) := by
  constructor
  · intro s
    exact ⟨fun h => by simp [router_reflector, h],
      fun h => by simp [router_reflector, h],
      fun h => by simp [router_reflector, h],
      fun h => by simp [router_reflector, h],
      fun h => by simp [router_reflector, h],
      fun h1 h2 h3 h4 h5 => by simp [router_reflector, h1, h2, h3, h4, h5]⟩
  · intro s d hact
    by_cases h20 : s.iteration > 20 <;>
      simp [node_reflector, h20, hact, applyPatch, router_reflector]

/-- C9: if the sandbox executor's external test-run command raises (timeout
or spawn failure), the node does not raise: it returns the error text as
`test_result`, changes nothing else (in particular `next_action`), and its
outgoing edge leads to the reflector's normal classification path. -/
theorem C9_executor_never_raises :
    ∀ (s : AgentState) (e : String) (fs : FileSystem),
      node_executor s (.raised e) = { test_result := some ("Execution Error: " ++ e) } ∧
      (applyPatch s (node_executor s (.raised e))).test_result = "Execution Error: " ++ e ∧
      (applyPatch s (node_executor s (.raised e))).next_action = s.next_action ∧
      Step .executor s fs .reflector (applyPatch s (node_executor s (.raised e)))
        { implementation := s.impl_code, test_suite := s.test_code } :=
  fun s e fs => ⟨rfl, rfl, rfl, Step.executor s fs (.raised e)⟩

/-- C10: the router after the spec compiler dispatches every state whose
`next_action` differs from the exact string `"replan_internal"` to the test
author, sends `"replan_internal"` back to the architect, and never
dispatches to the terminal node (no fail-safe default). -/
theorem C10_reviser_router_no_default :
    ∀ s : AgentState,
      (s.next_action ≠ "replan_internal" → router_reviser s = GraphNode.tester) ∧
      (s.next_action = "replan_internal" → router_reviser s = GraphNode.planner_architect) ∧
      router_reviser s ≠ GraphNode.END := by
  intro s
  refine ⟨fun h => ?_, fun h => ?_, ?_⟩
  · simp [router_reviser, h]
  · simp [router_reviser, h]
  · rcases router_reviser_cases s with h | h <;> rw [h] <;> decide

/-- C4: the mutation auditor unconditionally leaves `implementation.py`
holding the state's implementation code (in the survived outcome, in the
killed outcome, and when the probe run raised), never touches
`test_suite.py`, and on every invocation reachable in a run the content of
`implementation.py` after the node returns is byte-identical to its content
before the node was entered. -/
theorem C4_mutation_auditor_frame :
    (∀ (s : AgentState) (m : MutantOutput) (probe : ProbeOutcome) (fs : FileSystem),
      (node_mutation_tester s m probe fs).1.implementation = s.impl_code ∧
      (node_mutation_tester s m probe fs).1.test_suite = fs.test_suite) ∧
    (∀ (req : String) (fs0 : FileSystem) (s : AgentState) (fs : FileSystem)
      (n2 : GraphNode) (s2 : AgentState) (fs2 : FileSystem),
      Reach req fs0 .mutation_tester s fs →
      Step .mutation_tester s fs n2 s2 fs2 →
      fs2.implementation = fs.implementation) := by
  constructor
  · intro s m probe fs
    rw [mutation_restores]
    exact ⟨rfl, rfl⟩
  · intro req fs0 s fs n2 s2 fs2 hreach hstep
    have hfile : fs.implementation = s.impl_code := (reach_runInv hreach).2.2 (Or.inr rfl)
    cases hstep with
    | mutation =>
        rename_i m probe
        simp [mutation_restores, hfile]

/-- C7: `current_phase` is monotone over every run: the product-owner node
initializes it to `"dev"`; along any reachable step, once the phase is
`"mutation"` it stays `"mutation"`; the only step that changes the phase is
a reflector step emitting `mutation_check`, which flips `"dev"` to
`"mutation"`; and after any phase-changing step no later step of the run
changes the phase again, so the dev-to-mutation transition happens at most
once per run and the phase never returns to `"dev"`. -/
theorem C7_phase_monotone :
    (∀ (s : AgentState) (res : String), (node_planner_po s res).current_phase = some "dev") ∧
    (∀ (req : String) (fs0 : FileSystem) (n : GraphNode) (s : AgentState) (fs : FileSystem)
      (n2 : GraphNode) (s2 : AgentState) (fs2 : FileSystem),
      Reach req fs0 n s fs → Step n s fs n2 s2 fs2 →
      s.current_phase = "mutation" → s2.current_phase = "mutation") ∧
    (∀ (req : String) (fs0 : FileSystem) (n : GraphNode) (s : AgentState) (fs : FileSystem)
      (n2 : GraphNode) (s2 : AgentState) (fs2 : FileSystem),
      Reach req fs0 n s fs → Step n s fs n2 s2 fs2 →
      s2.current_phase ≠ s.current_phase →
      n = GraphNode.reflector ∧ s.current_phase = "dev" ∧
        s2.current_phase = "mutation" ∧ s2.next_action = "mutation_check") ∧
    (∀ (req : String) (fs0 : FileSystem) (n : GraphNode) (s : AgentState) (fs : FileSystem)
      (n2 : GraphNode) (s2 : AgentState) (fs2 : FileSystem)
      (n3 : GraphNode) (s3 : AgentState) (fs3 : FileSystem)
      (n4 : GraphNode) (s4 : AgentState) (fs4 : FileSystem),
      Reach req fs0 n s fs → Step n s fs n2 s2 fs2 →
      s2.current_phase ≠ s.current_phase →
      ReachFrom n2 s2 fs2 n3 s3 fs3 → Step n3 s3 fs3 n4 s4 fs4 →
      s4.current_phase = s3.current_phase) := by
  refine ⟨fun s res => rfl, ?_, ?_, ?_⟩
  · intro req fs0 n s fs n2 s2 fs2 hreach hstep hm
    by_cases hn : n = GraphNode.planner_po
    · subst hn
      have hs := (reach_po hreach).1
      rw [hs] at hm
      simp [initState] at hm
    · exact step_phase hstep hn hm
  · intro req fs0 n s fs n2 s2 fs2 hreach hstep hne
    have hdom := (reach_runInv hreach).1
    have hpo : n = GraphNode.planner_po → s.current_phase = "dev" := by
      intro hn
      subst hn
      rw [(reach_po hreach).1]
      rfl
    exact step_phase_change hstep hdom hpo hne
  · intro req fs0 n s fs n2 s2 fs2 n3 s3 fs3 n4 s4 fs4 hreach hstep hne hrf hstep2
    have hdom := (reach_runInv hreach).1
    have hpo : n = GraphNode.planner_po → s.current_phase = "dev" := by
      intro hn
      subst hn
      rw [(reach_po hreach).1]
      rfl
    obtain ⟨-, -, hmut, -⟩ := step_phase_change hstep hdom hpo hne
    have hinv : s3.current_phase = "mutation" ∧ n3 ≠ GraphNode.planner_po := by
      refine reachFrom_ind
        (P := fun nx sx _ => sx.current_phase = "mutation" ∧ nx ≠ GraphNode.planner_po)
        hrf ⟨hmut, step_target_ne_po hstep⟩ ?_
      intro a b c d e f st hP
      exact ⟨step_phase st hP.2 hP.1, step_target_ne_po st⟩
    rw [step_phase hstep2 hinv.2 hinv.1, hinv.1]

/-- The sample run reaches the mutation auditor with the artifact files
exactly as the executor last wrote them. -/
theorem reach_st8 :
    Reach "average of a list of numbers" fs0ex .mutation_tester st8 fs7 := by
  have h0 : ReachFrom .planner_po st0 fs0ex .planner_po st0 fs0ex := .refl _ _ _
  have h1 : ReachFrom .planner_po st0 fs0ex .planner_architect st1 fs0ex :=
    .tail h0 (Step.po st0 fs0ex "po notes")
  have h2 : ReachFrom .planner_po st0 fs0ex .planner_critic st2 fs0ex :=
    .tail h1 (Step.architect st1 fs0ex "architect notes")
  have h3 : ReachFrom .planner_po st0 fs0ex .planner_reviser st3 fs0ex :=
    .tail h2 (Step.critic st2 fs0ex "critic notes")
  have h4 : ReachFrom .planner_po st0 fs0ex .tester st4 fs0ex := by
    have hs := Step.reviser st3 fs0ex exSpec
    have hr : router_reviser (applyPatch st3 (node_planner_reviser st3 exSpec))
        = GraphNode.tester := by decide
    rw [hr] at hs
    exact .tail h3 hs
  have h5 : ReachFrom .planner_po st0 fs0ex .coder st5 fs0ex :=
    .tail h4 (Step.tester st4 fs0ex exTest)
  have h6 : ReachFrom .planner_po st0 fs0ex .executor st6 fs0ex :=
    .tail h5 (Step.coder st5 fs0ex exCode)
  have h7 : ReachFrom .planner_po st0 fs0ex .reflector st7 fs7 :=
    .tail h6 (Step.executor st6 fs0ex (.completed "2 passed" "" 0))
  have h8 : ReachFrom .planner_po st0 fs0ex .mutation_tester st8 fs7 := by
    have hs := Step.reflector st7 fs7 exDecision
    have hr : router_reflector (applyPatch st7 (node_reflector st7 exDecision))
        = GraphNode.mutation_tester := by decide
    rw [hr] at hs
    exact .tail h7 hs
  exact h8

/-! ### Witnesses instantiating the claim theorems at concrete inputs -/

/-- Witness for C1: at `replan_count = 3` and a `needs_replan` verdict. -/
theorem C1_witness :
    node_planner_reviser wS3 wReplanSpec =
      { design_plan := some (some wReplanSpec),
        feedback := some "Warning: Spec finalized after 3 replans. Issues may remain.",
        next_action := some "proceed" } ∧
    (applyPatch wS3 (node_planner_reviser wS3 wReplanSpec)).replan_count = wS3.replan_count ∧
    (applyPatch wS3 (node_planner_reviser wS3 wReplanSpec)).next_action = "proceed" :=
  C1_forced_proceed_at_cap.1 wS3 wReplanSpec rfl (by decide)

/-- Witness for C2 (amended): at `iteration = 0` the reflector's patch
bumps the counter to 1. -/
theorem C2_witness :
    (node_reflector st0 dEx).iteration = some (st0.iteration + 1) ∧
    (applyPatch st0 (node_reflector st0 dEx)).iteration = st0.iteration + 1 :=
  C2_reflector_iteration.1 st0 dEx (by decide)

/-- Witness for C3: at `iteration = 21` the reflector forces `finish`. -/
theorem C3_witness :
    node_reflector s21 dEx =
      { next_action := some "finish", feedback := some "Global Loop Limit reached." } :=
  (C3_loop_limit_short_circuit s21 dEx (by decide)).1

/-- Witness for C4: along the sample run, the auditor's probe (surviving
mutant) leaves `implementation.py` byte-identical. -/
theorem C4_witness :
    (node_mutation_tester st8 exMutant (.completed 0) fs7).1.implementation
      = fs7.implementation :=
  C4_mutation_auditor_frame.2 "average of a list of numbers" fs0ex st8 fs7
    (router_mutation (applyPatch st8 (node_mutation_tester st8 exMutant (.completed 0) fs7).2))
    (applyPatch st8 (node_mutation_tester st8 exMutant (.completed 0) fs7).2)
    (node_mutation_tester st8 exMutant (.completed 0) fs7).1
    reach_st8 (Step.mutation st8 fs7 exMutant (.completed 0))

/-- Witness for C5: a probe exiting with status 1 counts as killed and
routes to the terminal node. -/
theorem C5_witness :
    (node_mutation_tester st0 exMutant (.completed 1) fs0ex).2 =
      { feedback := some "Passed.", next_action := some "finish",
        mutation_logs := some (st0.mutation_logs ++ ["Killed"]) } ∧
    router_mutation (applyPatch st0 (node_mutation_tester st0 exMutant (.completed 1) fs0ex).2)
      = GraphNode.END :=
  (C5_mutation_probe_outcomes st0 exMutant fs0ex).2.1 1 (by decide)

/-- Witness for C6: at `replan_count = 0` a `needs_replan` verdict empties
the spec, increments the counter and routes back to the architect. -/
theorem C6_witness :
    node_planner_reviser st0 wReplanSpec =
      { design_plan := some none,
        feedback := some wReplanSpec.replan_reason,
        next_action := some "replan_internal",
        replan_count := some (st0.replan_count + 1) } ∧
    router_reviser (applyPatch st0 (node_planner_reviser st0 wReplanSpec))
      = GraphNode.planner_architect :=
  C6_internal_replan.1 st0 wReplanSpec rfl (by decide)

/-- Witness for C7: along the sample run, a step of the mutation auditor
taken in phase `"mutation"` keeps the phase at `"mutation"`. -/
theorem C7_witness :
    (applyPatch st8 (node_mutation_tester st8 exMutant (.completed 0) fs7).2).current_phase
      = "mutation" :=
  C7_phase_monotone.2.1 "average of a list of numbers" fs0ex .mutation_tester st8 fs7
    (router_mutation (applyPatch st8 (node_mutation_tester st8 exMutant (.completed 0) fs7).2))
    (applyPatch st8 (node_mutation_tester st8 exMutant (.completed 0) fs7).2)
    (node_mutation_tester st8 exMutant (.completed 0) fs7).1
    reach_st8 (Step.mutation st8 fs7 exMutant (.completed 0)) (by decide)

/-- Witness for C8: a `finish` signal routes to the terminal node. -/
theorem C8_witness : router_reflector wFinish = GraphNode.END :=
  (C8_reflector_router_table.1 wFinish).2.2.2.2.1 rfl

/-- Witness for C10: a `proceed` signal routes to the test author. -/
theorem C10_witness : router_reviser wProceed = GraphNode.tester :=
  (C10_reviser_router_no_default wProceed).1 (by decide)
